import Mathlib

/-!
# OVMS WifiConsole: verification of the configuration header

Shallow embedding of `WifiConsole_config.h`.  The header is a flat list of
sixteen declarations with initialisers.  Each declared name is rendered as a
Lean constant holding the value of its initialiser, and the declarations
themselves (name, C++ type, initialiser) are collected in `declarations`, in
the order of the header.

* `const char* x = "..."`   : `String`, type `pointer (scalar char const) mutable`
* `const int x = n`         : `Int`,    type `scalar int const`
* `const float x = d.ddd f` : `FloatLit` (the decimal literal, read exactly
  through `FloatLit.exact`), type `scalar float const`
-/

namespace WifiConsole

/-! ## C++ types of the declarations -/

/-- Fundamental types used by the header. -/
inductive Base where
  | char
  | int
  | float
  deriving DecidableEq, Repr

/-- The fragment of C++ types the header uses.  `isConst` is the
const-qualifier of the type itself; for a pointer this is the qualifier of
the pointer object (`T* const`), while the qualifier of the pointed-to type
sits inside `pointee` (`const T*`). -/
inductive CType where
  | scalar (base : Base) (isConst : Bool)
  | pointer (pointee : CType) (isConst : Bool)
  deriving DecidableEq, Repr

/-- Spelling `const char*`: a non-const pointer to const `char`. -/
def constCharPtr : CType := .pointer (.scalar .char true) false

/-- Spelling `const int`. -/
def constInt : CType := .scalar .int true

/-- Spelling `const float`. -/
def constFloat : CType := .scalar .float true

/-- Whether an object of this type is a constant object, that is, whether
its own (top-level) type is const-qualified. -/
def CType.isConstObject : CType → Bool
  | .scalar _ c => c
  | .pointer _ c => c

/-- Whether this is a pointer type whose pointed-to type is const-qualified. -/
def CType.pointeeIsConst : CType → Bool
  | .scalar _ _ => false
  | .pointer p _ => p.isConstObject

/-- Semantic type of a configuration option. -/
inductive SemType where
  | text
  | integer
  | float
  deriving DecidableEq, Repr

/-- Semantic type carried by a C++ type: a `char` pointer is a text string,
`int` an integer, `float` a float. -/
def CType.semantic : CType → Option SemType
  | .pointer (.scalar .char _) _ => some .text
  | .scalar .int _ => some .integer
  | .scalar .float _ => some .float
  | _ => none

/-! ## Literals -/

/-- Decimal floating literal: `digits` are the decimal digits with the
point removed and `scale` is the number of digits after the point, so the
literal denotes `digits / 10 ^ scale`. -/
structure FloatLit where
  digits : Nat
  scale : Nat
  deriving DecidableEq, Repr

/-- Exact decimal value of a floating literal. -/
def FloatLit.exact (f : FloatLit) : ℚ := (f.digits : ℚ) / (10 : ℚ) ^ f.scale

/-! ## The declarations of `WifiConsole_config.h` -/

-- OVMS Module Connection:
def wifiSSID : String := "SSID"
def wifiPassword : String := "PASSWORD"
def ovmsHost : String := "192.168.4.1"
def ovmsAPIKey : String := "PASSWORD"

-- OVMS Tuning Defaults:
def defaultRecupLevel : Int := 18

-- User Interface:
def sleepTimeout : Int := 30
def dimTimeout : Int := 5
def applyTimeout : Int := 8
def socTimeout : Int := 3

def maxButtons : Int := 10

-- Battery Monitoring:
def vbatCalibration : FloatLit := ⟨4266827, 9⟩
def vbatAlert : FloatLit := ⟨355, 2⟩
def vbatLimit : FloatLit := ⟨345, 2⟩

-- Rotary Encoder:
def encoderPinDT : Int := 12
def encoderPinCLK : Int := 13

-- Display:
def displayPinReset : Int := -1

/-- Value of an initialiser. -/
inductive Init where
  | text (s : String)
  | integer (i : Int)
  | decimal (f : FloatLit)
  deriving DecidableEq, Repr

/-- One declaration of the header: declared name, declared type and
initialiser. -/
structure Decl where
  name : String
  type : CType
  init : Init
  deriving DecidableEq, Repr

/-- The declarations of the header, in source order. -/
def declarations : List Decl :=
  [ ⟨"wifiSSID", constCharPtr, .text wifiSSID⟩,
    ⟨"wifiPassword", constCharPtr, .text wifiPassword⟩,
    ⟨"ovmsHost", constCharPtr, .text ovmsHost⟩,
    ⟨"ovmsAPIKey", constCharPtr, .text ovmsAPIKey⟩,
    ⟨"defaultRecupLevel", constInt, .integer defaultRecupLevel⟩,
    ⟨"sleepTimeout", constInt, .integer sleepTimeout⟩,
    ⟨"dimTimeout", constInt, .integer dimTimeout⟩,
    ⟨"applyTimeout", constInt, .integer applyTimeout⟩,
    ⟨"socTimeout", constInt, .integer socTimeout⟩,
    ⟨"maxButtons", constInt, .integer maxButtons⟩,
    ⟨"vbatCalibration", constFloat, .decimal vbatCalibration⟩,
    ⟨"vbatAlert", constFloat, .decimal vbatAlert⟩,
    ⟨"vbatLimit", constFloat, .decimal vbatLimit⟩,
    ⟨"encoderPinDT", constInt, .integer encoderPinDT⟩,
    ⟨"encoderPinCLK", constInt, .integer encoderPinCLK⟩,
    ⟨"displayPinReset", constInt, .integer displayPinReset⟩ ]

/-- The configuration surface written after the specification (section 6
and the data-model table), under the names of the header: four text
options, nine integer options and three float options. -/
def specOptions : List (String × SemType) :=
  [ ("wifiSSID", .text),
    ("wifiPassword", .text),
    ("ovmsHost", .text),
    ("ovmsAPIKey", .text),
    ("defaultRecupLevel", .integer),
    ("sleepTimeout", .integer),
    ("dimTimeout", .integer),
    ("applyTimeout", .integer),
    ("socTimeout", .integer),
    ("maxButtons", .integer),
    ("vbatCalibration", .float),
    ("vbatAlert", .float),
    ("vbatLimit", .float),
    ("encoderPinDT", .integer),
    ("encoderPinCLK", .integer),
    ("displayPinReset", .integer) ]

/-- Name and semantic type of a declaration. -/
def Decl.option (d : Decl) : String × Option SemType := (d.name, d.type.semantic)

/-! ## Decimal fields of a dotted address -/

/-- Number denoted by a list of decimal digit characters, most significant
digit first. -/
def decimalValue (cs : List Char) : Nat :=
  cs.foldl (fun acc c => 10 * acc + (c.toNat - '0'.toNat)) 0

/-- A non-empty run of decimal digits denoting a number in `0..255`. -/
def IsOctetField (cs : List Char) : Prop :=
  cs ≠ [] ∧ (∀ c ∈ cs, c.isDigit = true) ∧ decimalValue cs ≤ 255

/-! ## Assignments to the declared names

The only way a C++ program changes what a name denotes is an assignment to
it, and the only way it changes the characters behind a `char` pointer is a
store through it.  The compiler admits an assignment only to an object
whose type is not const-qualified, and a store through a pointer only when
the pointed-to type is not const-qualified. -/

/-- Statements that could change a configuration value: `name = v;` and
`name[idx] = c;`. -/
inductive Stmt where
  | assign (name : String) (v : Init)
  | store (name : String) (idx : Nat) (c : Char)
  deriving DecidableEq, Repr

/-- The declaration of a name, if the header declares it. -/
def lookupDecl (n : String) : Option Decl :=
  declarations.find? (fun d => d.name == n)

/-- Whether a value may initialise or be assigned to an object of the
given type. -/
def CType.accepts : CType → Init → Bool
  | .pointer (.scalar .char _) _, .text _ => true
  | .scalar .int _, .integer _ => true
  | .scalar .float _, .decimal _ => true
  | _, _ => false

/-- Whether the compiler admits the statement against the header. -/
def admits : Stmt → Bool
  | .assign n v =>
    match lookupDecl n with
    | some d => !d.type.isConstObject && d.type.accepts v
    | none => false
  | .store n _ _ =>
    match lookupDecl n with
    | some d =>
      (match d.type with
       | .pointer p _ => !p.isConstObject
       | .scalar _ _ => false)
    | none => false

/-- Program state: what each name denotes. -/
abbrev Env := String → Option Init

/-- State right after initialisation. -/
def initEnv : Env := fun n => (lookupDecl n).map Decl.init

/-- Effect of a character store on a value. -/
def Init.setChar : Init → Nat → Char → Init
  | .text s, i, c => .text (String.mk (s.data.set i c))
  | v, _, _ => v

/-- Effect of one statement on the state. -/
def exec (env : Env) : Stmt → Env
  | .assign n v => fun m => if m = n then some v else env m
  | .store n i c => fun m => if m = n then (env m).map (fun v => v.setChar i c) else env m

/-- State after running a sequence of statements from a given state. -/
def run (prog : List Stmt) (env : Env) : Env := prog.foldl exec env

/-- Names of the four text options. -/
def textOptionNames : List String :=
  ["wifiSSID", "wifiPassword", "ovmsHost", "ovmsAPIKey"]

/-! ## Theorems -/

/-- Looking up the name of a declaration of the header finds that
declaration: no name is declared twice. -/
theorem lookupDecl_of_mem : ∀ d ∈ declarations, lookupDecl d.name = some d := by
  decide

/-- No declaration of the header is a pointer to non-const data. -/
theorem no_mutable_pointee :
    ∀ d ∈ declarations,
      (match d.type with
       | .pointer p _ => !p.isConstObject
       | .scalar _ _ => false) = false := by
  decide

/-- No store through a declared name is admitted. -/
theorem store_not_admitted (d : Decl) (hd : d ∈ declarations) (i : Nat) (c : Char) :
    admits (.store d.name i c) = false := by
  simp only [admits, lookupDecl_of_mem d hd]
  exact no_mutable_pointee d hd

/-- No assignment to a constant object of the header is admitted. -/
theorem assign_not_admitted (d : Decl) (hd : d ∈ declarations)
    (hc : d.type.isConstObject = true) (v : Init) :
    admits (.assign d.name v) = false := by
  simp [admits, lookupDecl_of_mem d hd, hc]

/-- An admitted statement leaves the value of a constant object alone. -/
theorem exec_keeps_const (d : Decl) (hd : d ∈ declarations)
    (hc : d.type.isConstObject = true) (env : Env) (s : Stmt)
    (hs : admits s = true) (v : Option Init) (henv : env d.name = v) :
    exec env s d.name = v := by
  cases s with
  | assign n w =>
    by_cases hn : d.name = n
    · subst hn
      rw [assign_not_admitted d hd hc w] at hs
      exact absurd hs (by decide)
    · simp [exec, hn, henv]
  | store n i c =>
    by_cases hn : d.name = n
    · subst hn
      rw [store_not_admitted d hd i c] at hs
      exact absurd hs (by decide)
    · simp [exec, hn, henv]

/-- A sequence of admitted statements leaves the value of a constant object
alone. -/
theorem run_keeps_const (d : Decl) (hd : d ∈ declarations)
    (hc : d.type.isConstObject = true) (v : Option Init) :
    ∀ (prog : List Stmt) (env : Env), (∀ s ∈ prog, admits s = true) →
      env d.name = v → run prog env d.name = v := by
  intro prog
  induction prog with
  | nil => intro env _ henv; simpa [run] using henv
  | cons s rest ih =>
    intro env hadm henv
    have hs : admits s = true := hadm s (List.mem_cons_self s rest)
    have hrest : ∀ t ∈ rest, admits t = true :=
      fun t ht => hadm t (List.mem_cons_of_mem s ht)
    have hstep := exec_keeps_const d hd hc env s hs v henv
    simpa [run] using ih (exec env s) hrest hstep

/-- The state after initialisation gives each declared name its
initialiser. -/
theorem initEnv_of_mem (d : Decl) (hd : d ∈ declarations) :
    initEnv d.name = some d.init := by
  simp [initEnv, lookupDecl_of_mem d hd]

/-- The declarations that are not text options are constant objects. -/
theorem non_text_is_const :
    ∀ d ∈ declarations, d.name ∉ textOptionNames → d.type.isConstObject = true := by
  decide

/-- The text options are non-const pointers to const characters. -/
theorem text_is_constCharPtr :
    ∀ d ∈ declarations, d.name ∈ textOptionNames → d.type = constCharPtr := by
  decide

/-- C1: the header declares exactly the sixteen options of the
specification, each once, and each with the stated semantic type (four
strings, nine integers, three floats); nothing is missing and nothing else
is declared. -/
theorem declarations_match_spec :
    declarations.map Decl.option = specOptions.map (fun o => (o.1, some o.2))
      ∧ (declarations.map Decl.name).Nodup
      ∧ declarations.length = 16
      ∧ (specOptions.filter (fun o => o.2 = SemType.text)).map Prod.fst
          = ["wifiSSID", "wifiPassword", "ovmsHost", "ovmsAPIKey"]
      ∧ (specOptions.filter (fun o => o.2 = SemType.integer)).length = 9
      ∧ (specOptions.filter (fun o => o.2 = SemType.float)).map Prod.fst
          = ["vbatCalibration", "vbatAlert", "vbatLimit"] := by
  refine ⟨by decide, by decide, by decide, by decide, by decide, by decide⟩

/-- C2: every timeout constant is non-negative. -/
theorem timeouts_nonneg :
    0 ≤ sleepTimeout ∧ 0 ≤ dimTimeout ∧ 0 ≤ applyTimeout ∧ 0 ≤ socTimeout := by
  decide

/-- C3: the display reset pin is a non-negative pin index or exactly the
sentinel -1, and the shipped value is the sentinel. -/
theorem displayPinReset_sentinel :
    (0 ≤ displayPinReset ∨ displayPinReset = -1) ∧ displayPinReset = -1 := by
  decide

/-- C4: the bound on profile buttons is at least 1. -/
theorem maxButtons_pos : 1 ≤ maxButtons := by
  decide

/-- C5: the battery calibration factor, read as the exact decimal value of
its literal 0.004266827, is strictly positive, so a positive raw ADC reading
scaled by it is a positive voltage. -/
theorem vbatCalibration_pos :
    vbatCalibration.exact = 4266827 / 1000000000
      ∧ 0 < vbatCalibration.exact
      ∧ ∀ a0 : Nat, 0 < a0 → 0 < (a0 : ℚ) * vbatCalibration.exact := by
  have hv : vbatCalibration.exact = 4266827 / 1000000000 := by
    norm_num [FloatLit.exact, vbatCalibration]
  have hpos : 0 < vbatCalibration.exact := by rw [hv]; norm_num
  refine ⟨hv, hpos, ?_⟩
  intro a0 ha
  have : (0 : ℚ) < (a0 : ℚ) := by exact_mod_cast ha
  exact mul_pos this hpos

/-- Witness for C5: the reading 1023 (full scale of a 10-bit ADC) is positive
and scales to a positive voltage. -/
theorem vbatCalibration_pos_witness :
    0 < 1023 ∧ 0 < ((1023 : Nat) : ℚ) * vbatCalibration.exact :=
  ⟨by decide, vbatCalibration_pos.2.2 1023 (by decide)⟩

/-- C6: the module host address is an IPv4 literal: four non-empty decimal
fields separated by three dots and nothing else, each field denoting a
number in 0..255. -/
theorem ovmsHost_is_ipv4 :
    ∃ f1 f2 f3 f4 : List Char,
      ovmsHost.data = f1 ++ '.' :: (f2 ++ '.' :: (f3 ++ '.' :: f4))
        ∧ IsOctetField f1 ∧ IsOctetField f2 ∧ IsOctetField f3 ∧ IsOctetField f4 := by
  refine ⟨['1', '9', '2'], ['1', '6', '8'], ['4'], ['1'], by decide, ?_, ?_, ?_, ?_⟩ <;>
    exact ⟨by decide, by decide, by decide⟩

/-- C8: reading the literals as exact decimals, the cutoff threshold is
positive and strictly below the alert threshold; so some voltage lies at or
above the cutoff and below the alert level, and every voltage below the
cutoff is below the alert level. -/
theorem vbatLimit_lt_vbatAlert :
    0 < vbatLimit.exact ∧ vbatLimit.exact < vbatAlert.exact
      ∧ (∃ v : ℚ, vbatLimit.exact ≤ v ∧ v < vbatAlert.exact)
      ∧ ∀ v : ℚ, v < vbatLimit.exact → v < vbatAlert.exact := by
  have hl : vbatLimit.exact = 345 / 100 := by norm_num [FloatLit.exact, vbatLimit]
  have ha : vbatAlert.exact = 355 / 100 := by norm_num [FloatLit.exact, vbatAlert]
  have hlt : vbatLimit.exact < vbatAlert.exact := by rw [hl, ha]; norm_num
  refine ⟨by rw [hl]; norm_num, hlt, ⟨vbatLimit.exact, le_refl _, hlt⟩, ?_⟩
  intro v hv
  exact lt_trans hv hlt

/-- Witness for C8: 3.0 V is below the cutoff and is below the alert level. -/
theorem vbatLimit_lt_vbatAlert_witness :
    (3 : ℚ) < vbatLimit.exact ∧ (3 : ℚ) < vbatAlert.exact :=
  have h : (3 : ℚ) < vbatLimit.exact := by norm_num [FloatLit.exact, vbatLimit]
  ⟨h, vbatLimit_lt_vbatAlert.2.2.2 3 h⟩

/-- C9: in tenths of a second the apply timeout is below the dim timeout,
which is below the sleep timeout. -/
theorem timeouts_ordered :
    applyTimeout < 10 * dimTimeout ∧ 10 * dimTimeout < 10 * sleepTimeout := by
  decide

/-- C10: both encoder pins are non-negative, they differ, and neither equals
the display reset pin. -/
theorem pins_distinct :
    0 ≤ encoderPinDT ∧ 0 ≤ encoderPinCLK ∧ encoderPinDT ≠ encoderPinCLK
      ∧ encoderPinDT ≠ displayPinReset ∧ encoderPinCLK ≠ displayPinReset := by
  decide

/-- C7, as the code has it: each of the twelve numeric options is declared
as a constant object, so no assignment to it is admitted and it denotes its
initial value in every state reachable by admitted statements.  The four
text options are declared `const char*`: pointers to constant characters,
through which no character store is admitted, but not constant objects
themselves. -/
theorem numeric_options_immutable :
    (∀ d ∈ declarations, d.name ∉ textOptionNames →
        d.type.isConstObject = true
          ∧ (∀ v : Init, admits (.assign d.name v) = false)
          ∧ ∀ prog : List Stmt, (∀ s ∈ prog, admits s = true) →
              run prog initEnv d.name = some d.init)
      ∧ (∀ d ∈ declarations, d.name ∈ textOptionNames →
          d.type = constCharPtr ∧ d.type.pointeeIsConst = true
            ∧ d.type.isConstObject = false
            ∧ ∀ (i : Nat) (c : Char), admits (.store d.name i c) = false)
      ∧ (declarations.filter (fun d => d.name ∉ textOptionNames)).length = 12
      ∧ (declarations.filter (fun d => d.name ∈ textOptionNames)).length = 4 := by
  refine ⟨?_, ?_, by decide, by decide⟩
  · intro d hd hn
    have hc := non_text_is_const d hd hn
    refine ⟨hc, assign_not_admitted d hd hc, ?_⟩
    intro prog hadm
    exact run_keeps_const d hd hc (some d.init) prog initEnv hadm (initEnv_of_mem d hd)
  · intro d hd hn
    have ht := text_is_constCharPtr d hd hn
    refine ⟨ht, ?_, ?_, store_not_admitted d hd⟩
    · rw [ht]; rfl
    · rw [ht]; rfl

/-- Witness for C7: after the admitted assignment of another network name
to `wifiSSID`, `sleepTimeout` still denotes 30, and no store through
`ovmsHost` is admitted. -/
theorem numeric_options_immutable_witness :
    run [Stmt.assign "wifiSSID" (Init.text "HOME")] initEnv "sleepTimeout"
        = some (Init.integer 30)
      ∧ admits (Stmt.store "ovmsHost" 0 'x') = false :=
  ⟨(numeric_options_immutable.1 ⟨"sleepTimeout", constInt, .integer sleepTimeout⟩
      (by decide) (by decide)).2.2 [Stmt.assign "wifiSSID" (Init.text "HOME")] (by decide),
   (numeric_options_immutable.2.1 ⟨"ovmsHost", constCharPtr, .text ovmsHost⟩
      (by decide) (by decide)).2.2.2 0 'x'⟩

/-- C7 as stated fails: not every declared name is a constant object.  The
assignment `wifiSSID = "HOME";` is admitted, and after it `wifiSSID` no
longer denotes its initial value "SSID". -/
theorem text_options_assignable :
    ¬ (∀ d ∈ declarations,
        d.type.isConstObject = true
          ∧ (∀ v : Init, admits (.assign d.name v) = false)
          ∧ ∀ prog : List Stmt, (∀ s ∈ prog, admits s = true) →
              run prog initEnv d.name = some d.init)
      ∧ admits (Stmt.assign "wifiSSID" (Init.text "HOME")) = true
      ∧ initEnv "wifiSSID" = some (Init.text "SSID")
      ∧ run [Stmt.assign "wifiSSID" (Init.text "HOME")] initEnv "wifiSSID"
          = some (Init.text "HOME") := by
  refine ⟨?_, by decide, by decide, by decide⟩
  intro h
  have h1 := (h ⟨"wifiSSID", constCharPtr, .text wifiSSID⟩ (by decide)).1
  exact absurd h1 (by decide)

end WifiConsole
